import Mathlib

/-!
Shallow embedding of `wallet/core/src/tx/generator/settings.rs` from
rusty-kaspa: the `GeneratorSettings` structure, its three fallible
constructors (`try_new_with_account`, `try_new_with_context`,
`try_new_with_iterator`) and the `utxo_context_transfer` transformation.

External collaborator types (`Account`, `UtxoContext`, `NetworkType`,
`Address`, `Multiplexer`, `Fees`, `PaymentDestination`) live outside the
provided source tree; they are modelled from the spec at the interface the
settings module consumes, as noted on each definition.
-/

namespace RustyKaspa

/-- Decidable equality for `Except`, so concrete constructor results can be
checked by `decide`. -/
instance {ε α : Type} [DecidableEq ε] [DecidableEq α] : DecidableEq (Except ε α)
  | .ok x, .ok y =>
    if h : x = y then .isTrue (congrArg Except.ok h)
    else .isFalse (fun hh => h (Except.ok.inj hh))
  | .error x, .error y =>
    if h : x = y then .isTrue (congrArg Except.error h)
    else .isFalse (fun hh => h (Except.error.inj hh))
  | .ok _, .error _ => .isFalse (fun hh => Except.noConfusion hh)
  | .error _, .ok _ => .isFalse (fun hh => Except.noConfusion hh)

/-- Modelled from the spec: the single error kind surfaced by this layer,
a `ResolutionError` raised when network identity cannot be determined or
change-address derivation fails (spec section 7). -/
inductive Error
  | resolutionError
deriving DecidableEq

/-- Modelled from the spec: the network identifier designates which
independent ledger instance addresses and transactions belong to.
`NetworkType` has the four kaspa networks. -/
inductive NetworkType
  | mainnet
  | testnet
  | devnet
  | simnet
deriving DecidableEq

/-- Modelled from the spec: an address network identifier tag (the `Prefix`
of `kaspa_addresses::Address`); it is either one of the four recognized
network tags or an unrecognized tag, in which case conversion to a
`NetworkType` fails with a resolution error. -/
inductive Hrp
  | mainnet
  | testnet
  | simnet
  | devnet
  | unrecognized
deriving DecidableEq

/-- Modelled from the spec: `NetworkType::try_from(prefix)` — fails with a
resolution error if the address's network tag is not a recognized network. -/
def NetworkType.tryFrom : Hrp → Except Error NetworkType
  | .mainnet => .ok .mainnet
  | .testnet => .ok .testnet
  | .simnet => .ok .simnet
  | .devnet => .ok .devnet
  | .unrecognized => .error .resolutionError

/-- Modelled from the spec: a `NetworkId` carries a network type (and an
optional numeric instance suffix); `.into()` on a `NetworkId` yields its
`NetworkType`. -/
structure NetworkId where
  network_type : NetworkType
  suffix : Option Nat
deriving DecidableEq

/-- Conversion `NetworkId -> NetworkType` (the `.into()` in the source). -/
def NetworkId.intoNetworkType (n : NetworkId) : NetworkType :=
  n.network_type

/-- Modelled from the spec: an address is a network tag (`prefix` field in
the Rust source, `hrp` here) plus an opaque payload. -/
structure Address where
  hrp : Hrp
  payload : Nat
deriving DecidableEq

/-- Modelled from the spec: an opaque reference to a spendable output. -/
structure UtxoEntryReference where
  id : Nat
deriving DecidableEq

/-- Modelled from the spec: a handle to the shared event broadcast channel;
this layer only stores a cloned handle. -/
structure Multiplexer where
  id : Nat
deriving DecidableEq

/-- Modelled from the spec: opaque fee policy value type. -/
structure Fees where
  amount : Nat
deriving DecidableEq

/-- Modelled from the spec: opaque destination specification value type. -/
structure PaymentDestination where
  id : Nat
deriving DecidableEq

/-- Modelled from the spec: the utxo processor behind a context exposes a
fallible network identifier; `none` models a context not yet bound to a
network. -/
structure UtxoProcessor where
  network_id? : Option NetworkId
deriving DecidableEq

/-- Source `processor.network_id()`: resolution error when unbound. -/
def UtxoProcessor.network_id (p : UtxoProcessor) : Except Error NetworkId :=
  match p.network_id? with
  | some n => .ok n
  | none => .error .resolutionError

/-- Modelled from the spec: a spending context (`UtxoContext`) — the live
record of tracked spendable outputs, with its processor and the sequence of
output references an iterator over it yields. -/
structure UtxoContext where
  id : Nat
  processor : UtxoProcessor
  entries : List UtxoEntryReference
deriving DecidableEq

/-- Modelled from the spec: `UtxoIterator::new(context)` wraps the context
in a fresh forward-only sequence of its output references. -/
def UtxoIterator.new (c : UtxoContext) : List UtxoEntryReference :=
  c.entries

/-- Modelled from the spec: the account capability set consumed here —
spending context, fallible change-address derivation (`none` models a
derivation failure), wallet notification channel, signature-operation
count and minimum-signature threshold. -/
structure Account where
  utxo_context : UtxoContext
  change_address? : Option Address
  wallet_multiplexer : Multiplexer
  sig_op_count : Nat
  minimum_signatures : Nat
deriving DecidableEq

/-- Source `account.change_address()`: resolution error when derivation
fails. -/
def Account.change_address (a : Account) : Except Error Address :=
  match a.change_address? with
  | some addr => .ok addr
  | none => .error .resolutionError

/-- The `GeneratorSettings` structure of the source, field for field; the
dynamically dispatched utxo iterator is embedded as the list of references
it will yield. -/
structure GeneratorSettings where
  network_type : NetworkType
  multiplexer : Option Multiplexer
  utxo_iterator : List UtxoEntryReference
  source_utxo_context : Option UtxoContext
  sig_op_count : Nat
  minimum_signatures : Nat
  change_address : Address
  final_transaction_priority_fee : Fees
  final_transaction_destination : PaymentDestination
  final_transaction_payload : Option (List Nat)
  destination_utxo_context : Option UtxoContext
deriving DecidableEq

/-- Source `GeneratorSettings::try_new_with_account`. -/
def GeneratorSettings.try_new_with_account
    (account : Account)
    (final_transaction_destination : PaymentDestination)
    (final_priority_fee : Fees)
    (final_transaction_payload : Option (List Nat)) :
    Except Error GeneratorSettings := do
  let network_id ← account.utxo_context.processor.network_id
  let network_type := network_id.intoNetworkType
  let change_address ← account.change_address
  let multiplexer := account.wallet_multiplexer
  let sig_op_count := account.sig_op_count
  let minimum_signatures := account.minimum_signatures
  let utxo_iterator := UtxoIterator.new account.utxo_context
  return {
    network_type := network_type
    multiplexer := some multiplexer
    sig_op_count := sig_op_count
    minimum_signatures := minimum_signatures
    change_address := change_address
    utxo_iterator := utxo_iterator
    source_utxo_context := some account.utxo_context
    final_transaction_priority_fee := final_priority_fee
    final_transaction_destination := final_transaction_destination
    final_transaction_payload := final_transaction_payload
    destination_utxo_context := none }

/-- Source `GeneratorSettings::try_new_with_context`. -/
def GeneratorSettings.try_new_with_context
    (utxo_context : UtxoContext)
    (change_address : Address)
    (sig_op_count : Nat)
    (minimum_signatures : Nat)
    (final_transaction_destination : PaymentDestination)
    (final_priority_fee : Fees)
    (final_transaction_payload : Option (List Nat))
    (multiplexer : Option Multiplexer) :
    Except Error GeneratorSettings := do
  let network_id ← utxo_context.processor.network_id
  let network_type := network_id.intoNetworkType
  let utxo_iterator := UtxoIterator.new utxo_context
  return {
    network_type := network_type
    multiplexer := multiplexer
    sig_op_count := sig_op_count
    minimum_signatures := minimum_signatures
    change_address := change_address
    utxo_iterator := utxo_iterator
    source_utxo_context := some utxo_context
    final_transaction_priority_fee := final_priority_fee
    final_transaction_destination := final_transaction_destination
    final_transaction_payload := final_transaction_payload
    destination_utxo_context := none }

/-- Source `GeneratorSettings::try_new_with_iterator`. -/
def GeneratorSettings.try_new_with_iterator
    (utxo_iterator : List UtxoEntryReference)
    (change_address : Address)
    (sig_op_count : Nat)
    (minimum_signatures : Nat)
    (final_transaction_destination : PaymentDestination)
    (final_priority_fee : Fees)
    (final_transaction_payload : Option (List Nat))
    (multiplexer : Option Multiplexer) :
    Except Error GeneratorSettings := do
  let network_type ← NetworkType.tryFrom change_address.hrp
  return {
    network_type := network_type
    multiplexer := multiplexer
    sig_op_count := sig_op_count
    minimum_signatures := minimum_signatures
    change_address := change_address
    utxo_iterator := utxo_iterator
    source_utxo_context := none
    final_transaction_priority_fee := final_priority_fee
    final_transaction_destination := final_transaction_destination
    final_transaction_payload := final_transaction_payload
    destination_utxo_context := none }

/-- Source `GeneratorSettings::utxo_context_transfer`: consumes the value
and returns it with the destination context set. -/
def GeneratorSettings.utxo_context_transfer
    (s : GeneratorSettings) (destination_utxo_context : UtxoContext) :
    GeneratorSettings :=
  { s with destination_utxo_context := some destination_utxo_context }

/-- Concrete mainnet processor used for sample evaluations. -/
def procEx : UtxoProcessor := ⟨some ⟨.mainnet, none⟩⟩

/-- Concrete bound spending context used for sample evaluations. -/
def ctxEx : UtxoContext := ⟨0, procEx, [⟨0⟩]⟩

/-- Concrete mainnet change address used for sample evaluations. -/
def addrEx : Address := ⟨.mainnet, 1⟩

/-- Concrete testnet change address used for sample evaluations. -/
def addrTestnetEx : Address := ⟨.testnet, 2⟩

/-- Concrete address with an unrecognized network tag. -/
def addrBadEx : Address := ⟨.unrecognized, 3⟩

/-- Concrete account (mainnet, sig ops 2, min signatures 1). -/
def acctEx : Account := ⟨ctxEx, some addrEx, ⟨7⟩, 2, 1⟩

/-- Concrete account on a context not bound to a network. -/
def acctUnboundEx : Account := ⟨⟨1, ⟨none⟩, []⟩, some addrEx, ⟨7⟩, 2, 1⟩

/-- Concrete account whose change-address derivation fails. -/
def acctNoAddrEx : Account := ⟨ctxEx, none, ⟨7⟩, 2, 1⟩

/-- Concrete context not bound to a network. -/
def ctxUnboundEx : UtxoContext := ⟨2, ⟨none⟩, []⟩

/-- Concrete destination specification. -/
def destEx : PaymentDestination := ⟨0⟩

/-- Concrete priority fee. -/
def feeEx : Fees := ⟨0⟩

/-- Concrete settings value produced by the account path from `acctEx`. -/
def s1Ex : GeneratorSettings :=
  { network_type := .mainnet
    multiplexer := some ⟨7⟩
    utxo_iterator := [⟨0⟩]
    source_utxo_context := some ctxEx
    sig_op_count := 2
    minimum_signatures := 1
    change_address := addrEx
    final_transaction_priority_fee := feeEx
    final_transaction_destination := destEx
    final_transaction_payload := none
    destination_utxo_context := none }

/-- Concrete settings value produced by the context path from `ctxEx`. -/
def s2Ex : GeneratorSettings :=
  { s1Ex with multiplexer := none }

/-- Concrete settings value produced by the iterator path from an empty
reference sequence and `addrEx`. -/
def s3Ex : GeneratorSettings :=
  { s2Ex with utxo_iterator := [], source_utxo_context := none }

/-- Concrete settings value produced by the context path with zero
signature parameters. -/
def s7Ex : GeneratorSettings :=
  { s2Ex with sig_op_count := 0, minimum_signatures := 0 }

/-- Concrete settings value produced by the context path with a testnet
change address on a mainnet-bound context. -/
def s8Ex : GeneratorSettings :=
  { s2Ex with change_address := addrTestnetEx }

/-- Shape lemma: a successful account-path construction, field by field. -/
theorem try_new_with_account_ok
    (acct : Account) (dst : PaymentDestination) (fee : Fees)
    (payload : Option (List Nat)) (nid : NetworkId) (ca : Address)
    (hn : acct.utxo_context.processor.network_id? = some nid)
    (hc : acct.change_address? = some ca) :
    GeneratorSettings.try_new_with_account acct dst fee payload = .ok
      { network_type := nid.intoNetworkType
        multiplexer := some acct.wallet_multiplexer
        utxo_iterator := acct.utxo_context.entries
        source_utxo_context := some acct.utxo_context
        sig_op_count := acct.sig_op_count
        minimum_signatures := acct.minimum_signatures
        change_address := ca
        final_transaction_priority_fee := fee
        final_transaction_destination := dst
        final_transaction_payload := payload
        destination_utxo_context := none } := by
  simp [GeneratorSettings.try_new_with_account, UtxoProcessor.network_id,
    Account.change_address, UtxoIterator.new, hn, hc, bind, Except.bind,
    pure, Except.pure]

/-- Shape lemma: the account path propagates a network resolution failure. -/
theorem try_new_with_account_err_network
    (acct : Account) (dst : PaymentDestination) (fee : Fees)
    (payload : Option (List Nat))
    (hn : acct.utxo_context.processor.network_id? = none) :
    GeneratorSettings.try_new_with_account acct dst fee payload =
      .error .resolutionError := by
  simp [GeneratorSettings.try_new_with_account, UtxoProcessor.network_id,
    hn, bind, Except.bind]

/-- Shape lemma: the account path fails when change-address derivation
fails (whatever the network resolution outcome). -/
theorem try_new_with_account_err_change
    (acct : Account) (dst : PaymentDestination) (fee : Fees)
    (payload : Option (List Nat))
    (hc : acct.change_address? = none) :
    GeneratorSettings.try_new_with_account acct dst fee payload =
      .error .resolutionError := by
  cases hn : acct.utxo_context.processor.network_id? with
  | none => exact try_new_with_account_err_network acct dst fee payload hn
  | some nid =>
    simp [GeneratorSettings.try_new_with_account, UtxoProcessor.network_id,
      Account.change_address, hn, hc, bind, Except.bind]

/-- Shape lemma: a successful context-path construction, field by field. -/
theorem try_new_with_context_ok
    (ctx : UtxoContext) (addr : Address) (soc ms : Nat)
    (dst : PaymentDestination) (fee : Fees) (payload : Option (List Nat))
    (mux : Option Multiplexer) (nid : NetworkId)
    (hn : ctx.processor.network_id? = some nid) :
    GeneratorSettings.try_new_with_context ctx addr soc ms dst fee payload mux
      = .ok
      { network_type := nid.intoNetworkType
        multiplexer := mux
        utxo_iterator := ctx.entries
        source_utxo_context := some ctx
        sig_op_count := soc
        minimum_signatures := ms
        change_address := addr
        final_transaction_priority_fee := fee
        final_transaction_destination := dst
        final_transaction_payload := payload
        destination_utxo_context := none } := by
  simp [GeneratorSettings.try_new_with_context, UtxoProcessor.network_id,
    UtxoIterator.new, hn, bind, Except.bind, pure, Except.pure]

/-- Shape lemma: the context path propagates a network resolution failure. -/
theorem try_new_with_context_err
    (ctx : UtxoContext) (addr : Address) (soc ms : Nat)
    (dst : PaymentDestination) (fee : Fees) (payload : Option (List Nat))
    (mux : Option Multiplexer)
    (hn : ctx.processor.network_id? = none) :
    GeneratorSettings.try_new_with_context ctx addr soc ms dst fee payload mux
      = .error .resolutionError := by
  simp [GeneratorSettings.try_new_with_context, UtxoProcessor.network_id,
    hn, bind, Except.bind]

/-- Shape lemma: a successful iterator-path construction, field by field. -/
theorem try_new_with_iterator_ok
    (it : List UtxoEntryReference) (addr : Address) (soc ms : Nat)
    (dst : PaymentDestination) (fee : Fees) (payload : Option (List Nat))
    (mux : Option Multiplexer) (nt : NetworkType)
    (h : NetworkType.tryFrom addr.hrp = .ok nt) :
    GeneratorSettings.try_new_with_iterator it addr soc ms dst fee payload mux
      = .ok
      { network_type := nt
        multiplexer := mux
        utxo_iterator := it
        source_utxo_context := none
        sig_op_count := soc
        minimum_signatures := ms
        change_address := addr
        final_transaction_priority_fee := fee
        final_transaction_destination := dst
        final_transaction_payload := payload
        destination_utxo_context := none } := by
  simp [GeneratorSettings.try_new_with_iterator, h, bind, Except.bind,
    pure, Except.pure]

/-- Shape lemma: the iterator path propagates an unrecognized address tag
failure. -/
theorem try_new_with_iterator_err
    (it : List UtxoEntryReference) (addr : Address) (soc ms : Nat)
    (dst : PaymentDestination) (fee : Fees) (payload : Option (List Nat))
    (mux : Option Multiplexer) (e : Error)
    (h : NetworkType.tryFrom addr.hrp = .error e) :
    GeneratorSettings.try_new_with_iterator it addr soc ms dst fee payload mux
      = .error e := by
  simp [GeneratorSettings.try_new_with_iterator, h, bind, Except.bind]

/-- Bridging lemma: resolving a network identifier succeeds exactly when
the processor is bound to one. -/
theorem network_id_ok_iff (p : UtxoProcessor) (n : NetworkId) :
    p.network_id = .ok n ↔ p.network_id? = some n := by
  cases h : p.network_id? <;> simp [UtxoProcessor.network_id, h]

/-- Bridging lemma: change-address derivation succeeds exactly when the
account has one. -/
theorem change_address_ok_iff (a : Account) (addr : Address) :
    a.change_address = .ok addr ↔ a.change_address? = some addr := by
  cases h : a.change_address? <;> simp [Account.change_address, h]

/-- Inversion lemma: any successful account-path construction arises from a
resolved network identifier and a derived change address, and the result is
the fully determined record. -/
theorem try_new_with_account_ok_inv
    (acct : Account) (dst : PaymentDestination) (fee : Fees)
    (payload : Option (List Nat)) (s : GeneratorSettings)
    (h : GeneratorSettings.try_new_with_account acct dst fee payload = .ok s) :
    ∃ nid ca, acct.utxo_context.processor.network_id? = some nid ∧
      acct.change_address? = some ca ∧
      s = { network_type := nid.intoNetworkType
            multiplexer := some acct.wallet_multiplexer
            utxo_iterator := acct.utxo_context.entries
            source_utxo_context := some acct.utxo_context
            sig_op_count := acct.sig_op_count
            minimum_signatures := acct.minimum_signatures
            change_address := ca
            final_transaction_priority_fee := fee
            final_transaction_destination := dst
            final_transaction_payload := payload
            destination_utxo_context := none } := by
  cases hn : acct.utxo_context.processor.network_id? with
  | none =>
    rw [try_new_with_account_err_network acct dst fee payload hn] at h
    exact Except.noConfusion h
  | some nid =>
    cases hc : acct.change_address? with
    | none =>
      rw [try_new_with_account_err_change acct dst fee payload hc] at h
      exact Except.noConfusion h
    | some ca =>
      exact ⟨nid, ca, rfl, rfl, (Except.ok.inj
        ((try_new_with_account_ok acct dst fee payload nid ca hn hc).symm.trans h)).symm⟩

/-- Inversion lemma: any successful context-path construction arises from a
resolved network identifier, and the result is the fully determined
record. -/
theorem try_new_with_context_ok_inv
    (ctx : UtxoContext) (addr : Address) (soc ms : Nat)
    (dst : PaymentDestination) (fee : Fees) (payload : Option (List Nat))
    (mux : Option Multiplexer) (s : GeneratorSettings)
    (h : GeneratorSettings.try_new_with_context ctx addr soc ms dst fee payload mux
      = .ok s) :
    ∃ nid, ctx.processor.network_id? = some nid ∧
      s = { network_type := nid.intoNetworkType
            multiplexer := mux
            utxo_iterator := ctx.entries
            source_utxo_context := some ctx
            sig_op_count := soc
            minimum_signatures := ms
            change_address := addr
            final_transaction_priority_fee := fee
            final_transaction_destination := dst
            final_transaction_payload := payload
            destination_utxo_context := none } := by
  cases hn : ctx.processor.network_id? with
  | none =>
    rw [try_new_with_context_err ctx addr soc ms dst fee payload mux hn] at h
    exact Except.noConfusion h
  | some nid =>
    exact ⟨nid, rfl, (Except.ok.inj
      ((try_new_with_context_ok ctx addr soc ms dst fee payload mux nid hn).symm.trans h)).symm⟩

/-- Inversion lemma: any successful iterator-path construction arises from a
recognized change-address network tag, and the result is the fully
determined record. -/
theorem try_new_with_iterator_ok_inv
    (it : List UtxoEntryReference) (addr : Address) (soc ms : Nat)
    (dst : PaymentDestination) (fee : Fees) (payload : Option (List Nat))
    (mux : Option Multiplexer) (s : GeneratorSettings)
    (h : GeneratorSettings.try_new_with_iterator it addr soc ms dst fee payload mux
      = .ok s) :
    ∃ nt, NetworkType.tryFrom addr.hrp = .ok nt ∧
      s = { network_type := nt
            multiplexer := mux
            utxo_iterator := it
            source_utxo_context := none
            sig_op_count := soc
            minimum_signatures := ms
            change_address := addr
            final_transaction_priority_fee := fee
            final_transaction_destination := dst
            final_transaction_payload := payload
            destination_utxo_context := none } := by
  cases ht : NetworkType.tryFrom addr.hrp with
  | error e =>
    rw [try_new_with_iterator_err it addr soc ms dst fee payload mux e ht] at h
    exact Except.noConfusion h
  | ok nt =>
    exact ⟨nt, rfl, (Except.ok.inj
      ((try_new_with_iterator_ok it addr soc ms dst fee payload mux nt ht).symm.trans h)).symm⟩

/-- Boolean success test for `Except` values. -/
def isOkE {ε α : Type} : Except ε α → Bool
  | .ok _ => true
  | .error _ => false

/-- Claim C1: for every successful call to any of the three constructors,
the network_type field of the returned settings value equals the network
identifier implied by its source — the account's or context's resolved
network identifier for the first two paths, and the network derived from
the change address's network tag for the iterator path. -/
theorem C1_network_type_matches_source
    (acct : Account) (ctx : UtxoContext) (addr : Address) (soc ms : Nat)
    (dst : PaymentDestination) (fee : Fees) (payload : Option (List Nat))
    (mux : Option Multiplexer) (it : List UtxoEntryReference)
    (n1 n2 : NetworkId) (s1 s2 s3 : GeneratorSettings)
    (hn1 : acct.utxo_context.processor.network_id = .ok n1)
    (h1 : GeneratorSettings.try_new_with_account acct dst fee payload = .ok s1)
    (hn2 : ctx.processor.network_id = .ok n2)
    (h2 : GeneratorSettings.try_new_with_context ctx addr soc ms dst fee payload mux
      = .ok s2)
    (h3 : GeneratorSettings.try_new_with_iterator it addr soc ms dst fee payload mux
      = .ok s3) :
    s1.network_type = n1.intoNetworkType ∧
    s2.network_type = n2.intoNetworkType ∧
    NetworkType.tryFrom addr.hrp = .ok s3.network_type := by
  refine ⟨?_, ?_, ?_⟩
  · obtain ⟨nid, ca, hn, hc, rfl⟩ :=
      try_new_with_account_ok_inv acct dst fee payload s1 h1
    have he : nid = n1 := by
      have h' := (network_id_ok_iff _ _).1 hn1
      rw [hn] at h'
      exact Option.some.inj h'
    subst he
    rfl
  · obtain ⟨nid, hn, rfl⟩ :=
      try_new_with_context_ok_inv ctx addr soc ms dst fee payload mux s2 h2
    have he : nid = n2 := by
      have h' := (network_id_ok_iff _ _).1 hn2
      rw [hn] at h'
      exact Option.some.inj h'
    subst he
    rfl
  · obtain ⟨nt, ht, rfl⟩ :=
      try_new_with_iterator_ok_inv it addr soc ms dst fee payload mux s3 h3
    exact ht

/-- Witness for C1 at concrete mainnet inputs. -/
theorem C1_witness :
    s1Ex.network_type = NetworkId.intoNetworkType ⟨.mainnet, none⟩ ∧
    s2Ex.network_type = NetworkId.intoNetworkType ⟨.mainnet, none⟩ ∧
    NetworkType.tryFrom addrEx.hrp = .ok s3Ex.network_type :=
  C1_network_type_matches_source acctEx ctxEx addrEx 2 1 destEx feeEx none none []
    ⟨.mainnet, none⟩ ⟨.mainnet, none⟩ s1Ex s2Ex s3Ex
    (by decide) (by decide) (by decide) (by decide) (by decide)

/-- Claim C2: utxo_context_transfer is total (a plain function), sets
destination_utxo_context to the supplied context, leaves every other field
unchanged, and applying it again with the same context has no further
effect. -/
theorem C2_transfer_frame (s : GeneratorSettings) (d : UtxoContext) :
    (s.utxo_context_transfer d).destination_utxo_context = some d ∧
    (s.utxo_context_transfer d).network_type = s.network_type ∧
    (s.utxo_context_transfer d).multiplexer = s.multiplexer ∧
    (s.utxo_context_transfer d).utxo_iterator = s.utxo_iterator ∧
    (s.utxo_context_transfer d).source_utxo_context = s.source_utxo_context ∧
    (s.utxo_context_transfer d).sig_op_count = s.sig_op_count ∧
    (s.utxo_context_transfer d).minimum_signatures = s.minimum_signatures ∧
    (s.utxo_context_transfer d).change_address = s.change_address ∧
    (s.utxo_context_transfer d).final_transaction_priority_fee
      = s.final_transaction_priority_fee ∧
    (s.utxo_context_transfer d).final_transaction_destination
      = s.final_transaction_destination ∧
    (s.utxo_context_transfer d).final_transaction_payload
      = s.final_transaction_payload ∧
    (s.utxo_context_transfer d).utxo_context_transfer d = s.utxo_context_transfer d :=
  ⟨rfl, rfl, rfl, rfl, rfl, rfl, rfl, rfl, rfl, rfl, rfl, rfl⟩

/-- Claim C3: every constructor is atomic — an unbound context (account or
explicit), a failing change-address derivation, or an unrecognized address
network tag yields a resolution error and no settings value is produced. -/
theorem C3_construction_atomic
    (acct1 acct2 : Account) (ctx : UtxoContext) (addr : Address)
    (soc ms : Nat) (dst : PaymentDestination) (fee : Fees)
    (payload : Option (List Nat)) (mux : Option Multiplexer)
    (it : List UtxoEntryReference)
    (h1 : acct1.utxo_context.processor.network_id? = none)
    (h2 : acct2.change_address? = none)
    (h3 : ctx.processor.network_id? = none)
    (h4 : NetworkType.tryFrom addr.hrp = .error .resolutionError) :
    GeneratorSettings.try_new_with_account acct1 dst fee payload
      = .error .resolutionError ∧
    GeneratorSettings.try_new_with_account acct2 dst fee payload
      = .error .resolutionError ∧
    GeneratorSettings.try_new_with_context ctx addr soc ms dst fee payload mux
      = .error .resolutionError ∧
    GeneratorSettings.try_new_with_iterator it addr soc ms dst fee payload mux
      = .error .resolutionError := by
  exact ⟨try_new_with_account_err_network acct1 dst fee payload h1,
    try_new_with_account_err_change acct2 dst fee payload h2,
    try_new_with_context_err ctx addr soc ms dst fee payload mux h3,
    try_new_with_iterator_err it addr soc ms dst fee payload mux .resolutionError h4⟩

/-- Witness for C3 at concrete failing inputs: an unbound account context,
a failing change-address derivation, an unbound explicit context, and an
unrecognized address tag. -/
theorem C3_witness :
    GeneratorSettings.try_new_with_account acctUnboundEx destEx feeEx none
      = .error .resolutionError ∧
    GeneratorSettings.try_new_with_account acctNoAddrEx destEx feeEx none
      = .error .resolutionError ∧
    GeneratorSettings.try_new_with_context ctxUnboundEx addrEx 2 1 destEx feeEx none none
      = .error .resolutionError ∧
    GeneratorSettings.try_new_with_iterator [] addrBadEx 2 1 destEx feeEx none none
      = .error .resolutionError :=
  C3_construction_atomic acctUnboundEx acctNoAddrEx ctxUnboundEx addrBadEx 2 1
    destEx feeEx none none [] (by decide) (by decide) (by decide) (by decide)

/-- Claim C4: for every account whose network resolution and change-address
derivation succeed, the account path returns a settings value carrying the
account's change address, signature-operation count, minimum-signature
threshold, its spending context as source, and its wallet notification
channel wrapped in some. -/
theorem C4_account_fields
    (acct : Account) (dst : PaymentDestination) (fee : Fees)
    (payload : Option (List Nat)) (ca : Address) (s : GeneratorSettings)
    (hc : acct.change_address = .ok ca)
    (h : GeneratorSettings.try_new_with_account acct dst fee payload = .ok s) :
    s.change_address = ca ∧
    s.sig_op_count = acct.sig_op_count ∧
    s.minimum_signatures = acct.minimum_signatures ∧
    s.source_utxo_context = some acct.utxo_context ∧
    s.multiplexer = some acct.wallet_multiplexer := by
  obtain ⟨nid, ca2, hn2, hc2, rfl⟩ :=
    try_new_with_account_ok_inv acct dst fee payload s h
  have he : ca2 = ca := by
    have h' := (change_address_ok_iff _ _).1 hc
    rw [hc2] at h'
    exact Option.some.inj h'
  subst he
  exact ⟨rfl, rfl, rfl, rfl, rfl⟩

/-- Witness for C4 at the concrete account with signature-operation count 2
and minimum signatures 1. -/
theorem C4_witness :
    s1Ex.change_address = addrEx ∧
    s1Ex.sig_op_count = acctEx.sig_op_count ∧
    s1Ex.minimum_signatures = acctEx.minimum_signatures ∧
    s1Ex.source_utxo_context = some acctEx.utxo_context ∧
    s1Ex.multiplexer = some acctEx.wallet_multiplexer :=
  C4_account_fields acctEx destEx feeEx none addrEx s1Ex (by decide) (by decide)

/-- Claim C5: whenever the change address's network tag is recognized, the
iterator path succeeds — for any reference sequence, the empty one
included — and the produced settings value has no source spending
context. -/
theorem C5_iterator_succeeds
    (it : List UtxoEntryReference) (addr : Address) (soc ms : Nat)
    (dst : PaymentDestination) (fee : Fees) (payload : Option (List Nat))
    (mux : Option Multiplexer) (nt : NetworkType)
    (h : NetworkType.tryFrom addr.hrp = .ok nt) :
    (GeneratorSettings.try_new_with_iterator it addr soc ms dst fee payload mux).map
      (fun s => s.source_utxo_context) = .ok none := by
  rw [try_new_with_iterator_ok it addr soc ms dst fee payload mux nt h]
  rfl

/-- Witness for C5 at a zero-length reference sequence and a mainnet
address. -/
theorem C5_witness :
    (GeneratorSettings.try_new_with_iterator [] addrEx 2 1 destEx feeEx none none).map
      (fun s => s.source_utxo_context) = .ok none :=
  C5_iterator_succeeds [] addrEx 2 1 destEx feeEx none none .mainnet (by decide)

/-- Claim C6: every successful construction leaves destination_utxo_context
none; the transfer transformation is the operation that makes it some. -/
theorem C6_destination_initially_none
    (acct : Account) (ctx : UtxoContext) (addr : Address) (soc ms : Nat)
    (dst : PaymentDestination) (fee : Fees) (payload : Option (List Nat))
    (mux : Option Multiplexer) (it : List UtxoEntryReference)
    (s1 s2 s3 s : GeneratorSettings) (d : UtxoContext)
    (h1 : GeneratorSettings.try_new_with_account acct dst fee payload = .ok s1)
    (h2 : GeneratorSettings.try_new_with_context ctx addr soc ms dst fee payload mux
      = .ok s2)
    (h3 : GeneratorSettings.try_new_with_iterator it addr soc ms dst fee payload mux
      = .ok s3) :
    s1.destination_utxo_context = none ∧
    s2.destination_utxo_context = none ∧
    s3.destination_utxo_context = none ∧
    (s.utxo_context_transfer d).destination_utxo_context = some d := by
  obtain ⟨nid, ca, hn, hc, rfl⟩ :=
    try_new_with_account_ok_inv acct dst fee payload s1 h1
  obtain ⟨nid2, hn2, rfl⟩ :=
    try_new_with_context_ok_inv ctx addr soc ms dst fee payload mux s2 h2
  obtain ⟨nt, ht, rfl⟩ :=
    try_new_with_iterator_ok_inv it addr soc ms dst fee payload mux s3 h3
  exact ⟨rfl, rfl, rfl, rfl⟩

/-- Witness for C6 at concrete mainnet inputs. -/
theorem C6_witness :
    s1Ex.destination_utxo_context = none ∧
    s2Ex.destination_utxo_context = none ∧
    s3Ex.destination_utxo_context = none ∧
    (s1Ex.utxo_context_transfer ctxEx).destination_utxo_context = some ctxEx :=
  C6_destination_initially_none acctEx ctxEx addrEx 2 1 destEx feeEx none none []
    s1Ex s2Ex s3Ex s1Ex ctxEx (by decide) (by decide) (by decide)

/-- Counterexample to claim C7 as stated: the context path accepts a zero
signature-operation count and a zero minimum-signature threshold, returning
a settings value with both fields zero. -/
theorem C7_counterexample :
    ¬ (∀ s : GeneratorSettings,
        GeneratorSettings.try_new_with_context ctxEx addrEx 0 0 destEx feeEx none none
          = .ok s →
        1 ≤ s.sig_op_count ∧ 1 ≤ s.minimum_signatures) := by
  intro h
  exact absurd (h s7Ex (by decide)).1 (by decide)

/-- Claim C7 amended: the constructors perform no validation of the
signature parameters; each path copies the caller- or account-supplied
sig_op_count and minimum_signatures into the settings value unchanged, so
zero values are accepted and propagated. -/
theorem C7_sig_params_passthrough
    (acct : Account) (ctx : UtxoContext) (addr : Address) (soc ms : Nat)
    (dst : PaymentDestination) (fee : Fees) (payload : Option (List Nat))
    (mux : Option Multiplexer) (it : List UtxoEntryReference)
    (s1 s2 s3 : GeneratorSettings)
    (h1 : GeneratorSettings.try_new_with_account acct dst fee payload = .ok s1)
    (h2 : GeneratorSettings.try_new_with_context ctx addr soc ms dst fee payload mux
      = .ok s2)
    (h3 : GeneratorSettings.try_new_with_iterator it addr soc ms dst fee payload mux
      = .ok s3) :
    s1.sig_op_count = acct.sig_op_count ∧
    s1.minimum_signatures = acct.minimum_signatures ∧
    s2.sig_op_count = soc ∧
    s2.minimum_signatures = ms ∧
    s3.sig_op_count = soc ∧
    s3.minimum_signatures = ms := by
  obtain ⟨nid, ca, hn, hc, rfl⟩ :=
    try_new_with_account_ok_inv acct dst fee payload s1 h1
  obtain ⟨nid2, hn2, rfl⟩ :=
    try_new_with_context_ok_inv ctx addr soc ms dst fee payload mux s2 h2
  obtain ⟨nt, ht, rfl⟩ :=
    try_new_with_iterator_ok_inv it addr soc ms dst fee payload mux s3 h3
  exact ⟨rfl, rfl, rfl, rfl, rfl, rfl⟩

/-- Witness for the amended C7: signature parameters pass through unchanged
at concrete inputs, the zero-valued context construction included. -/
theorem C7_witness :
    s1Ex.sig_op_count = acctEx.sig_op_count ∧
    s1Ex.minimum_signatures = acctEx.minimum_signatures ∧
    s2Ex.sig_op_count = 2 ∧
    s2Ex.minimum_signatures = 1 ∧
    s3Ex.sig_op_count = 2 ∧
    s3Ex.minimum_signatures = 1 :=
  C7_sig_params_passthrough acctEx ctxEx addrEx 2 1 destEx feeEx none none []
    s1Ex s2Ex s3Ex (by decide) (by decide) (by decide)

/-- Counterexample to claim C8 as stated: the context path accepts a
testnet change address while the context resolves to mainnet, so the
produced settings value's change address does not belong to the
network_type network. -/
theorem C8_counterexample :
    ¬ (∀ s : GeneratorSettings,
        GeneratorSettings.try_new_with_context ctxEx addrTestnetEx 2 1 destEx feeEx
          none none = .ok s →
        NetworkType.tryFrom s.change_address.hrp = .ok s.network_type) := by
  intro h
  exact absurd (h s8Ex (by decide)) (by decide)

/-- Claim C8 amended: the address/network consistency invariant holds for
the iterator path, where network_type is derived from the change address's
tag; the account and context paths perform no such cross-check. -/
theorem C8_iterator_change_address_network
    (it : List UtxoEntryReference) (addr : Address) (soc ms : Nat)
    (dst : PaymentDestination) (fee : Fees) (payload : Option (List Nat))
    (mux : Option Multiplexer) (s : GeneratorSettings)
    (h : GeneratorSettings.try_new_with_iterator it addr soc ms dst fee payload mux
      = .ok s) :
    NetworkType.tryFrom s.change_address.hrp = .ok s.network_type := by
  obtain ⟨nt, ht, rfl⟩ :=
    try_new_with_iterator_ok_inv it addr soc ms dst fee payload mux s h
  exact ht

/-- Witness for the amended C8 at the concrete iterator-path result. -/
theorem C8_witness :
    NetworkType.tryFrom s3Ex.change_address.hrp = .ok s3Ex.network_type :=
  C8_iterator_change_address_network [] addrEx 2 1 destEx feeEx none none s3Ex
    (by decide)

/-- Claim C9: the iterator path fails exactly when the change address's
network tag is not recognized — its success coincides with the tag
conversion's success, the error produced is the resolution error, and a
recognized tag admits no other failure. -/
theorem C9_error_iff_unrecognized
    (it : List UtxoEntryReference) (addr : Address) (soc ms : Nat)
    (dst : PaymentDestination) (fee : Fees) (payload : Option (List Nat))
    (mux : Option Multiplexer) :
    isOkE (GeneratorSettings.try_new_with_iterator it addr soc ms dst fee payload mux)
      = isOkE (NetworkType.tryFrom addr.hrp) ∧
    (isOkE (NetworkType.tryFrom addr.hrp) = false →
      GeneratorSettings.try_new_with_iterator it addr soc ms dst fee payload mux
        = .error .resolutionError) := by
  cases ht : NetworkType.tryFrom addr.hrp with
  | ok nt =>
    rw [try_new_with_iterator_ok it addr soc ms dst fee payload mux nt ht]
    exact ⟨rfl, fun h => Bool.noConfusion h⟩
  | error e =>
    have he : e = .resolutionError := by cases e; rfl
    subst he
    rw [try_new_with_iterator_err it addr soc ms dst fee payload mux .resolutionError ht]
    exact ⟨rfl, fun _ => rfl⟩

/-- Witness for C9: the unrecognized tag yields the resolution error; the
recognized tag construction's success matches the conversion's success. -/
theorem C9_witness :
    GeneratorSettings.try_new_with_iterator [] addrBadEx 2 1 destEx feeEx none none
      = .error .resolutionError ∧
    isOkE (GeneratorSettings.try_new_with_iterator [] addrEx 2 1 destEx feeEx none none)
      = isOkE (NetworkType.tryFrom addrEx.hrp) :=
  ⟨(C9_error_iff_unrecognized [] addrBadEx 2 1 destEx feeEx none none).2 (by decide),
   (C9_error_iff_unrecognized [] addrEx 2 1 destEx feeEx none none).1⟩

/-- Claim C10: applying the transfer transformation twice overwrites the
destination context — the last-supplied context wins and every other field
still equals the original's. -/
theorem C10_transfer_overwrite (s : GeneratorSettings) (d1 d2 : UtxoContext) :
    ((s.utxo_context_transfer d1).utxo_context_transfer d2).destination_utxo_context
      = some d2 ∧
    ((s.utxo_context_transfer d1).utxo_context_transfer d2).network_type
      = s.network_type ∧
    ((s.utxo_context_transfer d1).utxo_context_transfer d2).multiplexer
      = s.multiplexer ∧
    ((s.utxo_context_transfer d1).utxo_context_transfer d2).utxo_iterator
      = s.utxo_iterator ∧
    ((s.utxo_context_transfer d1).utxo_context_transfer d2).source_utxo_context
      = s.source_utxo_context ∧
    ((s.utxo_context_transfer d1).utxo_context_transfer d2).sig_op_count
      = s.sig_op_count ∧
    ((s.utxo_context_transfer d1).utxo_context_transfer d2).minimum_signatures
      = s.minimum_signatures ∧
    ((s.utxo_context_transfer d1).utxo_context_transfer d2).change_address
      = s.change_address ∧
    ((s.utxo_context_transfer d1).utxo_context_transfer d2).final_transaction_priority_fee
      = s.final_transaction_priority_fee ∧
    ((s.utxo_context_transfer d1).utxo_context_transfer d2).final_transaction_destination
      = s.final_transaction_destination ∧
    ((s.utxo_context_transfer d1).utxo_context_transfer d2).final_transaction_payload
      = s.final_transaction_payload :=
  ⟨rfl, rfl, rfl, rfl, rfl, rfl, rfl, rfl, rfl, rfl, rfl⟩

end RustyKaspa
